import Mathlib

/-!
Shallow embedding of `salt/modules/win_update.py` (the salt `win_update`
execution module) and proofs about its retry wrappers, search filtering,
result formatting and skip-flag handling.

Python values are modelled as follows: machine integers as `Int` (Python
ints are unbounded and may go negative; Python truthiness of an int is
`≠ 0`), strings as `String`, COM collections as Lean lists, fallible
operations as `Option`.
-/

namespace WinUpdate

/-- Outcome of one attempt of a wrapped phase operation
(`PyWinUpdater.AutoSearch` / `Download` / `Install`): the Python value
bound to `passed` in the wrappers. `tru` is `True`, `fls` is a falsy
non-exception value (e.g. `AutoSearch` returning `False`), `exc m` is an
exception object whose `str()` is `m`. -/
inductive Outcome where
  | tru
  | fls
  | exc (msg : String)
deriving DecidableEq

/-- Loop body of `_search` (win_update.py lines 416-438), transcribed
from the source. Arguments are the Python locals `retries`, `clean`,
`comment`; the list supplies the outcome of each successive call to
`quidditch.AutoSearch()`. Returns the triple `(comment, flag, retries)`
that the Python function returns, paired with the number of attempts
performed (outcomes consumed); `none` means the `while` loop was still
running after consuming all the given outcomes. -/
def searchLoop : Int → Bool → String → List Outcome → Option (String × Bool × Int) × Nat
  | _, _, _, [] => (none, 0)
  | r, clean, comment, o :: rest =>
    match o with
    | Outcome.tru =>
        (some ((if clean then comment ++ ("Search was done with out an error.\n") else comment),
          true, r), 1)
    | Outcome.fls =>
        let x := searchLoop r clean comment rest
        (x.1, x.2 + 1)
    | Outcome.exc m =>
        let c2 := comment ++ ("Failed in the seeking/parsing process:\n\t\t") ++ m ++ ("\n")
        let r2 := r - 1
        if r2 ≠ 0 then
          let x := searchLoop r2 false (c2 ++ toString r2 ++ (" tries to go. retrying\n")) rest
          (x.1, x.2 + 1)
        else
          (some (c2 ++ ("out of retries. this update round failed.\n"), true, r2), 1)

/-- Loop body of `_download` (win_update.py lines 445-464), transcribed
from the source; same conventions as `searchLoop`. Note the exhaustion
branch returns the flag `False`, where `_search` returns `True`. -/
def downloadLoop : Int → Bool → String → List Outcome → Option (String × Bool × Int) × Nat
  | _, _, _, [] => (none, 0)
  | r, clean, comment, o :: rest =>
    match o with
    | Outcome.tru =>
        (some ((if clean then comment ++ ("Download was done without error.\n") else comment),
          true, r), 1)
    | Outcome.fls =>
        let x := downloadLoop r clean comment rest
        (x.1, x.2 + 1)
    | Outcome.exc m =>
        let c2 := comment ++ ("Failed while trying to download updates:\n\t\t") ++ m ++ ("\n")
        let r2 := r - 1
        if r2 ≠ 0 then
          let x := downloadLoop r2 false (c2 ++ toString r2 ++ (" tries to go. retrying\n")) rest
          (x.1, x.2 + 1)
        else
          (some (c2 ++ ("out of retries. this update round failed.\n"), false, r2), 1)

/-- Loop body of `_install` (win_update.py lines 471-491), transcribed
from the source; same conventions as `searchLoop`. Like `_download`, the
exhaustion branch returns the flag `False`. -/
def installLoop : Int → Bool → String → List Outcome → Option (String × Bool × Int) × Nat
  | _, _, _, [] => (none, 0)
  | r, clean, comment, o :: rest =>
    match o with
    | Outcome.tru =>
        (some ((if clean then comment ++ ("Install was done without error.\n") else comment),
          true, r), 1)
    | Outcome.fls =>
        let x := installLoop r clean comment rest
        (x.1, x.2 + 1)
    | Outcome.exc m =>
        let c2 := comment ++ ("Failed while trying to install the updates.\n\t\t") ++ m ++ ("\n")
        let r2 := r - 1
        if r2 ≠ 0 then
          let x := installLoop r2 false (c2 ++ toString r2 ++ (" tries to go. retrying\n")) rest
          (x.1, x.2 + 1)
        else
          (some (c2 ++ ("out of retries. this update round failed.\n"), false, r2), 1)

/-- The `_search` wrapper (win_update.py lines 411-438): enters the loop
with `passed = False`, `clean = True`, `comment = ''`. -/
def searchRetry (retries : Int) (outcomes : List Outcome) :
    Option (String × Bool × Int) × Nat :=
  searchLoop retries true ("") outcomes

/-- The `_download` wrapper (win_update.py lines 441-464). -/
def downloadRetry (retries : Int) (outcomes : List Outcome) :
    Option (String × Bool × Int) × Nat :=
  downloadLoop retries true ("") outcomes

/-- The `_install` wrapper (win_update.py lines 467-491). -/
def installRetry (retries : Int) (outcomes : List Outcome) :
    Option (String × Bool × Int) × Nat :=
  installLoop retries true ("") outcomes

/-- Retry plumbing of `install_updates` (win_update.py lines 663-675):
the three phases run in sequence, each receiving the retry count left
over by the previous one, and the pipeline stops at the first phase
whose returned flag is `False`. The result-formatting tail of
`install_updates` is not modelled; the second component is the total
number of attempts performed over all phases. -/
def installUpdatesFlow (retries : Int) (so dlo io : List Outcome) :
    Option (String × Bool × Int) × Nat :=
  let s := searchRetry retries so
  match s.1 with
  | none => (none, s.2)
  | some (c, p, r) =>
    if p = false then (some (c, p, r), s.2)
    else
      let d := downloadRetry r dlo
      match d.1 with
      | none => (none, s.2 + d.2)
      | some (c2, p2, r2) =>
        if p2 = false then (some (c2, p2, r2), s.2 + d.2)
        else
          let ins := installRetry r2 io
          match ins.1 with
          | none => (none, s.2 + d.2 + ins.2)
          | some t => (some t, s.2 + d.2 + ins.2)

lemma searchLoop_replicate_fls (n : Nat) :
    ∀ (r : Int) (clean : Bool) (comment : String),
      searchLoop r clean comment (List.replicate n Outcome.fls) = (none, n) := by
  induction n with
  | zero => intro r clean comment; rfl
  | succ k ih =>
    intro r clean comment
    simp [List.replicate, searchLoop, ih]

/-- Generic form of the retry loop shared by the three wrappers, stated
in the spec's words (`each wrapped in an identical retry loop`): it is
parameterised by the phase-specific failure message, the phase-specific
success message, and the flag returned on retry exhaustion. -/
def retryLoopGen (failMsg okMsg : String) (exhaustFlag : Bool) :
    Int → Bool → String → List Outcome → Option (String × Bool × Int) × Nat
  | _, _, _, [] => (none, 0)
  | r, clean, comment, o :: rest =>
    match o with
    | Outcome.tru =>
        (some ((if clean then comment ++ okMsg else comment), true, r), 1)
    | Outcome.fls =>
        let x := retryLoopGen failMsg okMsg exhaustFlag r clean comment rest
        (x.1, x.2 + 1)
    | Outcome.exc m =>
        let c2 := comment ++ failMsg ++ m ++ ("\n")
        let r2 := r - 1
        if r2 ≠ 0 then
          let x := retryLoopGen failMsg okMsg exhaustFlag r2 false
            (c2 ++ toString r2 ++ (" tries to go. retrying\n")) rest
          (x.1, x.2 + 1)
        else
          (some (c2 ++ ("out of retries. this update round failed.\n"), exhaustFlag, r2), 1)

lemma searchLoop_eq_gen : ∀ (os : List Outcome) (r : Int) (clean : Bool) (comment : String),
    searchLoop r clean comment os =
      retryLoopGen ("Failed in the seeking/parsing process:\n\t\t")
        ("Search was done with out an error.\n") true r clean comment os := by
  intro os
  induction os with
  | nil => intro r clean comment; rfl
  | cons o rest ih =>
    intro r clean comment
    cases o with
    | tru => rfl
    | fls => simp [searchLoop, retryLoopGen, ih]
    | exc m =>
      simp only [searchLoop, retryLoopGen]
      split
      · simp [ih]
      · rfl

lemma downloadLoop_eq_gen : ∀ (os : List Outcome) (r : Int) (clean : Bool) (comment : String),
    downloadLoop r clean comment os =
      retryLoopGen ("Failed while trying to download updates:\n\t\t")
        ("Download was done without error.\n") false r clean comment os := by
  intro os
  induction os with
  | nil => intro r clean comment; rfl
  | cons o rest ih =>
    intro r clean comment
    cases o with
    | tru => rfl
    | fls => simp [downloadLoop, retryLoopGen, ih]
    | exc m =>
      simp only [downloadLoop, retryLoopGen]
      split
      · simp [ih]
      · rfl

lemma installLoop_eq_gen : ∀ (os : List Outcome) (r : Int) (clean : Bool) (comment : String),
    installLoop r clean comment os =
      retryLoopGen ("Failed while trying to install the updates.\n\t\t")
        ("Install was done without error.\n") false r clean comment os := by
  intro os
  induction os with
  | nil => intro r clean comment; rfl
  | cons o rest ih =>
    intro r clean comment
    cases o with
    | tru => rfl
    | fls => simp [installLoop, retryLoopGen, ih]
    | exc m =>
      simp only [installLoop, retryLoopGen]
      split
      · simp [ih]
      · rfl

/-- C1: on retry exhaustion `_search` does not abort with a failure
flag: with one retry and `AutoSearch` raising, it returns the triple
whose flag component is `True` (win_update.py line 432), so callers such
as `list_updates` proceed as if the search had succeeded, contradicting
the claim (and the comment text `out of retries. this update round
failed.` accumulated by the very same branch). -/
theorem search_exhaustion_reports_success :
    searchRetry 1 [Outcome.exc ("e")] =
      (some (("Failed in the seeking/parsing process:\n\t\te\nout of retries. this update round failed.\n"),
        true, 0), 1) := by
  rfl

/-- C2: the retry loops are not bounded by the retry count: when
`AutoSearch` keeps returning the non-exception falsy value `False`
(which it does whenever both software and driver updates are skipped),
`_search` with `retries = 1` performs `n` attempts for every `n` without
ever decrementing the counter or giving up. -/
theorem search_never_gives_up_on_false :
    ∀ (n : Nat), searchRetry 1 (List.replicate n Outcome.fls) = (none, n) := by
  intro n
  exact searchLoop_replicate_fls n 1 true ("")

/-- C3 counterexample: the three wrappers do not produce the same
success flag: on retry exhaustion (retries 1, one raising attempt),
`_search` returns the flag `True` while `_download` returns `False`. -/
theorem search_download_flags_differ :
    (searchRetry 1 [Outcome.exc ("x")]).1.map (fun t => t.2.1) ≠
      (downloadRetry 1 [Outcome.exc ("x")]).1.map (fun t => t.2.1) := by
  decide

/-- C3 (amended): the three wrappers `_search`, `_download` and
`_install` are instances of one common retry loop `retryLoopGen`,
differing only in the phase-specific failure and success message wording
and — this is the amendment — in the flag returned on retry exhaustion:
`_download` and `_install` instantiate it with `False`, while `_search`
instantiates it with `True`. In particular `_download` and `_install`
produce the same success flag, the same remaining retry count and
comments of the same structure on every retry count and outcome
sequence. -/
theorem wrappers_share_loop_structure :
    ∀ (r : Int) (clean : Bool) (comment : String) (os : List Outcome),
      searchLoop r clean comment os =
        retryLoopGen ("Failed in the seeking/parsing process:\n\t\t")
          ("Search was done with out an error.\n") true r clean comment os
      ∧ downloadLoop r clean comment os =
        retryLoopGen ("Failed while trying to download updates:\n\t\t")
          ("Download was done without error.\n") false r clean comment os
      ∧ installLoop r clean comment os =
        retryLoopGen ("Failed while trying to install the updates.\n\t\t")
          ("Install was done without error.\n") false r clean comment os := by
  intro r clean comment os
  exact ⟨searchLoop_eq_gen os r clean comment,
    downloadLoop_eq_gen os r clean comment,
    installLoop_eq_gen os r clean comment⟩

/-- C4: the total number of failed attempts over all phases is not
bounded by the initial retries argument: `install_updates` with
`retries = 1`, one raising search attempt and two raising download
attempts performs 3 failed attempts and is still looping — after the
search phase exhausts the budget it reports success (flag `True`), so
the pipeline hands `retries = 0` to `_download`, which decrements it to
negative, non-zero hence truthy values and never gives up. -/
theorem pipeline_exceeds_retry_budget :
    installUpdatesFlow 1 [Outcome.exc ("a")] [Outcome.exc ("b"), Outcome.exc ("c")] [] =
      (none, 3) := by
  rfl

/-- Mutable option state of a `PyWinUpdater` instance: the eight skip
flags assigned in `__init__` (win_update.py lines 111-119) together with
`self.categories` (line 122; `None` when the user selected no category
list). -/
structure UpdaterFlags where
  skipUI : Bool
  skipDownloaded : Bool
  skipInstalled : Bool
  skipReboot : Bool
  skipPresent : Bool
  skipHidden : Bool
  skipSoftwareUpdates : Bool
  skipDriverUpdates : Bool
  categories : Option (List String)
deriving DecidableEq

/-- The attributes of an update object that the module reads: its
`InstallationBehavior.CanRequestUserInput`, `IsDownloaded`, the names of
its categories, and its `Title`. -/
structure Update where
  canRequestUserInput : Bool
  isDownloaded : Bool
  categories : List String
  title : String
deriving DecidableEq, Inhabited

/-- Search-string construction of `PyWinUpdater.AutoSearch`
(win_update.py lines 206-247): the four flag-dependent parameters joined
with trailing `and` separators, followed by the type clause. `none`
models the `return False` branch taken when both software and driver
updates are skipped, in which case `self.Search` is never invoked;
`some s` means the method returns `self.Search(s)`. -/
def autoSearchString (s : UpdaterFlags) : Option String :=
  let p1 := if s.skipInstalled then ("IsInstalled=0") else ("IsInstalled=1")
  let p2 := if s.skipHidden then ("IsHidden=0") else ("IsHidden=1")
  let p3 := if s.skipReboot then ("RebootRequired=0") else ("RebootRequired=1")
  let p4 := if s.skipPresent then ("IsPresent=0") else ("IsPresent=1")
  let base := List.foldl (fun acc i => acc ++ i ++ (" and ")) ("") [p1, p2, p3, p4]
  if !s.skipSoftwareUpdates && !s.skipDriverUpdates then
    some (base ++ ("Type=\x27Software\x27 or Type=\x27Driver\x27"))
  else if !s.skipSoftwareUpdates then
    some (base ++ ("Type=\x27Software\x27"))
  else if !s.skipDriverUpdates then
    some (base ++ ("Type=\x27Driver\x27"))
  else
    none

/-- C5: `AutoSearch` builds exactly the filter string the claim
describes: for each of the pairs (`skipInstalled`, `IsInstalled`),
(`skipHidden`, `IsHidden`), (`skipReboot`, `RebootRequired`),
(`skipPresent`, `IsPresent`) in that order it appends `Name=0` when the
flag is true and `Name=1` when it is false, each followed by `and`
surrounded by spaces; then the type clause chosen by the software/driver
skip flags; and when both are skipped it returns `False` (modelled
`none`) without invoking the search. -/
theorem autoSearchString_spec :
    ∀ (ui dl inst reb pres hid sw dr : Bool) (cat : Option (List String)),
      autoSearchString ⟨ui, dl, inst, reb, pres, hid, sw, dr, cat⟩ =
        (if sw && dr then none
         else some ((if inst then ("IsInstalled=0") else ("IsInstalled=1")) ++ (" and ")
           ++ (if hid then ("IsHidden=0") else ("IsHidden=1")) ++ (" and ")
           ++ (if reb then ("RebootRequired=0") else ("RebootRequired=1")) ++ (" and ")
           ++ (if pres then ("IsPresent=0") else ("IsPresent=1")) ++ (" and ")
           ++ (if !sw && !dr then ("Type=\x27Software\x27 or Type=\x27Driver\x27")
               else if !sw then ("Type=\x27Software\x27")
               else ("Type=\x27Driver\x27")))) := by
  intro ui dl inst reb pres hid sw dr cat
  cases inst <;> cases hid <;> cases reb <;> cases pres <;> cases sw <;> cases dr <;> rfl

/-- Category loop of `PyWinUpdater.Search` (win_update.py lines
184-195), transcribed from the source: iterate over the update's
categories; on the first one that is in the selected list (or
immediately when no category list is set), add the update to the
download collection and `break`. Returns how many times
`download_collection.Add(update)` runs. -/
def categoryLoopAdds : Option (List String) → List String → Nat
  | _, [] => 0
  | none, _ :: _ => 1
  | some l, c :: rest => if c ∈ l then 1 else categoryLoopAdds (some l) rest

/-- Per-update body of the result loop of `PyWinUpdater.Search`
(win_update.py lines 172-195), transcribed from the source: an update
that can request user input is skipped (note: unconditionally — the
`skipUI` flag is not consulted), then one that is already downloaded is
skipped when `skipDownloaded` is set, then the category loop runs.
Returns how many times the update is added to the download
collection. -/
def searchAddsUpdate (st : UpdaterFlags) (u : Update) : Nat :=
  if u.canRequestUserInput then 0
  else if st.skipDownloaded && u.isDownloaded then 0
  else categoryLoopAdds st.categories u.categories

/-- C6: `Search` skips updates that can request user input even when
the `UI` skip flag is `False`: here every other filter passes (the
update is not downloaded, `skipDownloaded` is false, no category list is
set so the category loop would add it), `skipUI` is `False`, yet the
update is never added — line 174 of win_update.py tests
`CanRequestUserInput` without consulting `self.skipUI`. -/
theorem search_ignores_ui_flag :
    searchAddsUpdate ⟨false, false, true, false, false, true, false, false, none⟩
      ⟨true, false, [("Updates")], ("U")⟩ = 0 := by
  rfl

lemma categoryLoopAdds_le_one :
    ∀ (sel : Option (List String)) (cats : List String), categoryLoopAdds sel cats ≤ 1 := by
  intro sel cats
  induction cats with
  | nil => cases sel <;> simp [categoryLoopAdds]
  | cons c rest ih =>
    cases sel with
    | none => simp [categoryLoopAdds]
    | some l =>
      by_cases h : c ∈ l
      · simp [categoryLoopAdds, h]
      · simpa [categoryLoopAdds, h] using ih

/-- C9: during `Search`, each update is added to the download
collection at most once, whatever the skip flags, the selected category
list (including none at all) and the update's own categories: the
category loop breaks at the first matching category. -/
theorem search_adds_update_at_most_once :
    ∀ (st : UpdaterFlags) (u : Update), searchAddsUpdate st u ≤ 1 := by
  intro st u
  unfold searchAddsUpdate
  split
  · exact Nat.zero_le 1
  · split
    · exact Nat.zero_le 1
    · exact categoryLoopAdds_le_one st.categories u.categories

/-- Entry format shared by `GetInstallationResults` and
`GetDownloadResults` (win_update.py lines 305-307 and 332-334): the
Python expression `str(ResultCode) + colon-space + str(Title)` produced
by the format string. Result codes are modelled as naturals. -/
def fmtResult (code : Nat) (title : String) : String :=
  toString code ++ (": ") ++ title

/-- The per-index entry strings built by the `for i in range(Count)`
loops of both result methods: the i-th entry pairs the i-th update
result's code with the i-th collection item's title. The result object
is modelled as a total map from indices to result codes. -/
def resultEntries (coll : List Update) (f : Nat → Nat) : List String :=
  (List.range coll.length).map (fun i => fmtResult (f i) ((coll.getD i default).title))

/-- The `for i, update in enumerate(updates)` loops of both result
methods (win_update.py lines 313-314 and 336-337), which key each entry
string by the text `update i`. -/
def resultsLibrary (updates : List String) : List (String × String) :=
  updates.enum.map (fun p => (("update ") ++ toString p.1, p.2))

/-- `PyWinUpdater.GetInstallationResults` (win_update.py lines
291-317): when the install collection is empty it returns the empty
dictionary at once; otherwise it dereferences `self.install_results`
per index — `none` models the `AttributeError` raised when that field
is still `None`. -/
def GetInstallationResults (install_collection : List Update)
    (install_results : Option (Nat → Nat)) : Option (List (String × String)) :=
  if install_collection.length = 0 then some []
  else
    match install_results with
    | none => none
    | some f => some (resultsLibrary (resultEntries install_collection f))

/-- `PyWinUpdater.GetDownloadResults` (win_update.py lines 329-338):
no explicit emptiness guard, but the `range(Count)` loop dereferences
`self.download_results` only when the collection is non-empty, so an
empty collection yields the empty dictionary even when the results
field is `None`. -/
def GetDownloadResults (download_collection : List Update)
    (download_results : Option (Nat → Nat)) : Option (List (String × String)) :=
  if download_collection.length = 0 then some []
  else
    match download_results with
    | none => none
    | some f => some (resultsLibrary (resultEntries download_collection f))

lemma resultsLibrary_getD (l : List String) (i : Nat) (h : i < l.length) :
    (resultsLibrary l).getD i (("", "")) = (("update ") ++ toString i, l.getD i ("")) := by
  simp [resultsLibrary, List.getD_eq_getElem?_getD, List.getElem?_map, List.getElem?_enum,
    List.getElem?_eq_getElem h]

lemma resultEntries_getD (coll : List Update) (f : Nat → Nat) (i : Nat)
    (h : i < coll.length) :
    (resultEntries coll f).getD i ("") = fmtResult (f i) ((coll.getD i default).title) := by
  simp [resultEntries, List.getD_eq_getElem?_getD, List.getElem?_map, List.getElem?_range, h]

/-- C7 counterexample: the produced entries are not strings of the form
index, result code and title joined by colon-space: for a one-element
collection whose update has title `KB1` and result code 2, the method
produces the entry `2: KB1` under the key `update 0`, not the entry
`0: 2: KB1` the claim describes. -/
theorem results_entry_not_indexed :
    GetInstallationResults [⟨false, true, [], ("KB1")⟩] (some (fun _ => 2)) =
      some [(("update 0"), ("2: KB1"))]
    ∧ ("2: KB1") ≠ ("0: 2: KB1") := by
  exact ⟨rfl, by decide⟩

/-- C7 (amended): for every index i below the collection count, both
`GetInstallationResults` and `GetDownloadResults` produce the same i-th
dictionary entry, whose key is the text `update i` and whose value is
the string composed of the i-th result's code and the i-th collection
item's title separated by colon-space; the index appears in the key,
not inside the entry string. -/
theorem results_entry_form :
    ∀ (coll : List Update) (f : Nat → Nat) (i : Nat), i < coll.length →
      ∃ entries,
        GetInstallationResults coll (some f) = some entries
        ∧ GetDownloadResults coll (some f) = some entries
        ∧ entries.getD i (("", "")) =
            (("update ") ++ toString i,
              toString (f i) ++ (": ") ++ ((coll.getD i default).title)) := by
  intro coll f i h
  have hne : coll.length ≠ 0 := Nat.pos_iff_ne_zero.mp (Nat.lt_of_le_of_lt (Nat.zero_le i) h)
  refine ⟨resultsLibrary (resultEntries coll f), ?_, ?_, ?_⟩
  · simp [GetInstallationResults, hne]
  · simp [GetDownloadResults, hne]
  · have hlen : i < (resultEntries coll f).length := by
      simpa [resultEntries] using h
    rw [resultsLibrary_getD (resultEntries coll f) i hlen, resultEntries_getD coll f i h]
    rfl

/-- C7 witness: the amended entry shape at a concrete one-element
collection and result map. -/
theorem results_entry_form_w :
    0 < ([(⟨false, true, [], ("KB1")⟩ : Update)]).length
    ∧ ∃ entries,
        GetInstallationResults [(⟨false, true, [], ("KB1")⟩ : Update)] (some (fun _ => 2)) =
          some entries
        ∧ GetDownloadResults [(⟨false, true, [], ("KB1")⟩ : Update)] (some (fun _ => 2)) =
          some entries
        ∧ entries.getD 0 (("", "")) =
            (("update ") ++ toString 0,
              toString 2 ++ (": ") ++
                ((([(⟨false, true, [], ("KB1")⟩ : Update)]).getD 0 default).title)) := by
  exact ⟨by decide, results_entry_form [⟨false, true, [], ("KB1")⟩] (fun _ => 2) 0 (by decide)⟩

/-- C8: when the install collection is empty, `GetInstallationResults`
returns the empty dictionary for every state of `install_results`,
including `none` (the field's initial `None`): the guard at
win_update.py lines 297-298 returns before the results object is ever
dereferenced. -/
theorem installation_results_empty :
    ∀ (coll : List Update) (res : Option (Nat → Nat)), coll.length = 0 →
      GetInstallationResults coll res = some [] := by
  intro coll res h
  simp [GetInstallationResults, h]

/-- C8 witness: the empty collection with the results field still
unset. -/
theorem installation_results_empty_w :
    (([] : List Update)).length = 0 ∧ GetInstallationResults [] none = some [] := by
  exact ⟨rfl, installation_results_empty [] none rfl⟩

/-- `PyWinUpdater.SetSkip` (win_update.py lines 377-396), transcribed
from the source: an `elif` chain over the eight recognised names; a name
outside the chain falls through and changes nothing. -/
def SetSkip (skip : String) (state : Bool) (s : UpdaterFlags) : UpdaterFlags :=
  if skip = ("UI") then
    ⟨state, s.skipDownloaded, s.skipInstalled, s.skipReboot, s.skipPresent, s.skipHidden,
      s.skipSoftwareUpdates, s.skipDriverUpdates, s.categories⟩
  else if skip = ("downloaded") then
    ⟨s.skipUI, state, s.skipInstalled, s.skipReboot, s.skipPresent, s.skipHidden,
      s.skipSoftwareUpdates, s.skipDriverUpdates, s.categories⟩
  else if skip = ("installed") then
    ⟨s.skipUI, s.skipDownloaded, state, s.skipReboot, s.skipPresent, s.skipHidden,
      s.skipSoftwareUpdates, s.skipDriverUpdates, s.categories⟩
  else if skip = ("reboot") then
    ⟨s.skipUI, s.skipDownloaded, s.skipInstalled, state, s.skipPresent, s.skipHidden,
      s.skipSoftwareUpdates, s.skipDriverUpdates, s.categories⟩
  else if skip = ("present") then
    ⟨s.skipUI, s.skipDownloaded, s.skipInstalled, s.skipReboot, state, s.skipHidden,
      s.skipSoftwareUpdates, s.skipDriverUpdates, s.categories⟩
  else if skip = ("hidden") then
    ⟨s.skipUI, s.skipDownloaded, s.skipInstalled, s.skipReboot, s.skipPresent, state,
      s.skipSoftwareUpdates, s.skipDriverUpdates, s.categories⟩
  else if skip = ("software") then
    ⟨s.skipUI, s.skipDownloaded, s.skipInstalled, s.skipReboot, s.skipPresent, s.skipHidden,
      state, s.skipDriverUpdates, s.categories⟩
  else if skip = ("driver") then
    ⟨s.skipUI, s.skipDownloaded, s.skipInstalled, s.skipReboot, s.skipPresent, s.skipHidden,
      s.skipSoftwareUpdates, state, s.categories⟩
  else
    s

/-- C10: `SetSkip` assigns exactly the flag named by its first argument
and leaves the other seven flags and the categories untouched, and for
any name outside the eight recognised ones it changes nothing at
all. -/
theorem setSkip_frame :
    ∀ (nm : String) (v a b c d e f g h : Bool) (cat : Option (List String)),
      SetSkip ("UI") v ⟨a, b, c, d, e, f, g, h, cat⟩ = ⟨v, b, c, d, e, f, g, h, cat⟩
      ∧ SetSkip ("downloaded") v ⟨a, b, c, d, e, f, g, h, cat⟩ = ⟨a, v, c, d, e, f, g, h, cat⟩
      ∧ SetSkip ("installed") v ⟨a, b, c, d, e, f, g, h, cat⟩ = ⟨a, b, v, d, e, f, g, h, cat⟩
      ∧ SetSkip ("reboot") v ⟨a, b, c, d, e, f, g, h, cat⟩ = ⟨a, b, c, v, e, f, g, h, cat⟩
      ∧ SetSkip ("present") v ⟨a, b, c, d, e, f, g, h, cat⟩ = ⟨a, b, c, d, v, f, g, h, cat⟩
      ∧ SetSkip ("hidden") v ⟨a, b, c, d, e, f, g, h, cat⟩ = ⟨a, b, c, d, e, v, g, h, cat⟩
      ∧ SetSkip ("software") v ⟨a, b, c, d, e, f, g, h, cat⟩ = ⟨a, b, c, d, e, f, v, h, cat⟩
      ∧ SetSkip ("driver") v ⟨a, b, c, d, e, f, g, h, cat⟩ = ⟨a, b, c, d, e, f, g, v, cat⟩
      ∧ (nm ∉ ([("UI"), ("downloaded"), ("installed"), ("reboot"), ("present"), ("hidden"),
            ("software"), ("driver")] : List String) →
          SetSkip nm v ⟨a, b, c, d, e, f, g, h, cat⟩ = ⟨a, b, c, d, e, f, g, h, cat⟩) := by
  intro nm v a b c d e f g h cat
  refine ⟨rfl, rfl, rfl, rfl, rfl, rfl, rfl, rfl, ?_⟩
  intro hnm
  simp only [List.mem_cons, List.not_mem_nil, or_false, not_or] at hnm
  obtain ⟨h1, h2, h3, h4, h5, h6, h7, h8⟩ := hnm
  simp [SetSkip, h1, h2, h3, h4, h5, h6, h7, h8]

/-- C10 witness: an unrecognised name changes nothing on a concrete
state. -/
theorem setSkip_frame_w :
    (("bogus") ∉ ([("UI"), ("downloaded"), ("installed"), ("reboot"), ("present"), ("hidden"),
        ("software"), ("driver")] : List String))
    ∧ SetSkip ("bogus") true ⟨true, false, true, false, false, true, false, false, none⟩ =
        ⟨true, false, true, false, false, true, false, false, none⟩ := by
  exact ⟨by decide,
    (setSkip_frame ("bogus") true true false true false false true false false none).2.2.2.2.2.2.2.2
      (by decide)⟩

end WinUpdate
